import Mathlib

/-!
Verification of the augmentation-operator catalog in
`src/data/augmentations.py` (repository System-SW/OCT-Volume-Classification).

The Python module defines a base class `_BaseAugmentationOp` whose `__call__`
validates the magnitude against an optional half-open `magnitude_limit`,
optionally negates the magnitude with probability 1/2 (`random_mirror`), and
delegates to the subclass `_apply_transformation`.  Each subclass wraps one
PIL / numpy image primitive.

Shallow embedding choices:
- Magnitudes (Python floats) are embedded as rationals `ℚ`; every concrete
  magnitude appearing in the source (0.3, 0.45, 10, 30, 256, 0.1, 1.9, 128)
  is exactly representable, and float comparison / negation on such values
  agrees with the rational one.
- An image is a width, a height and a flat list of 8-bit channel values
  (natural numbers; well-formedness `≤ 255` is a hypothesis where needed).
- `random.random()` is an explicit stream of draws `draws : ℕ → ℚ` with a
  cursor `idx`; a call returns the new cursor, so consuming a draw is
  observable.  Python's `self.random_mirror and 0.5 < random.random()`
  short-circuits, so a draw is consumed exactly when `random_mirror` is
  truthy (`some true`).
- `raise ValueError(...)` is `Except.error`; the single error kind is
  `AugError.invalidMagnitude` carrying the configured bounds and the
  offending magnitude, as in the formatted message.
- PIL primitives whose pixel-level semantics the claims rely on
  (`ImageOps.invert`, `ImageOps.solarize`, numpy add/clip/uint8-cast) are
  implemented from their documented behaviour; the remaining primitives
  (affine transform, rotate, autocontrast, equalize, flip, posterize,
  the four enhancers) are black boxes, embedded as constructors of
  `PILImageVal` that record exactly which primitive was invoked with which
  arguments on which image.
- Operator configuration is an immutable structure field, matching the
  Python attributes that are assigned once in `__init__` and only read in
  `__call__`; a call takes the operator as a read-only value and returns
  no modified operator, so stored configuration cannot change.
-/

namespace Aug

/-- An image: fixed `(width, height)` and a flat list of 8-bit channel
values (`PIL.Image` pixel data, 8 bits per channel). -/
structure Image where
  width : ℕ
  height : ℕ
  pixels : List ℕ
deriving DecidableEq

/-- Python's `int(x)` on a float: truncation toward zero. -/
def pyInt (q : ℚ) : ℤ :=
  if 0 ≤ q then ⌊q⌋ else ⌈q⌉

/-- `PIL.ImageOps.invert` on one 8-bit channel value: `255 - value`. -/
def invertPixel (v : ℕ) : ℕ := 255 - v

/-- `PIL.ImageOps.invert` on an image: invert every channel value. -/
def invertImage (img : Image) : Image :=
  { img with pixels := img.pixels.map invertPixel }

/-- `PIL.ImageOps.solarize` on one 8-bit channel value: values at or above
the threshold are inverted (`255 - value`), values below it are kept. -/
def solarizePixel (threshold : ℤ) (v : ℕ) : ℕ :=
  if (v : ℤ) < threshold then v else 255 - v

/-- The numpy step of `SolarizeAdd._apply_transformation` on one channel
value: `np.array(img, dtype=int)` widens to mathematical integers, `+ m`
adds the magnitude exactly, `np.clip(·, 0, 255)` clamps elementwise, and
`astype(np.uint8)` truncates the (already clamped, hence nonnegative)
value back to an 8-bit integer. -/
def addClamp (v : ℕ) (m : ℚ) : ℕ :=
  (⌊max 0 (min 255 ((v : ℚ) + m))⌋).toNat

/-- `SolarizeAdd._apply_transformation`: add-and-clamp every channel value
in the wide integer domain, then solarize with the fixed threshold. -/
def solarizeAddImage (img : Image) (m : ℚ) (threshold : ℤ) : Image :=
  { img with pixels := img.pixels.map (fun v => solarizePixel threshold (addClamp v m)) }

/-- The result of one `_apply_transformation` call.  Primitives with
pixel-level semantics produce a `concrete` image; black-box PIL primitives
are recorded as the call that was delegated, with the source image and the
exact arguments. -/
inductive PILImageVal where
  | concrete (img : Image)
  | transform (src : Image) (width height : ℕ) (a b c d e f : ℚ)
  | rotate (src : Image) (degrees : ℚ)
  | autocontrast (src : Image)
  | equalize (src : Image)
  | flip (src : Image)
  | solarized (src : Image) (threshold : ℚ)
  | posterize (src : Image) (bits : ℤ)
  | enhanceContrast (src : Image) (factor : ℚ)
  | enhanceColor (src : Image) (factor : ℚ)
  | enhanceBrightness (src : Image) (factor : ℚ)
  | enhanceSharpness (src : Image) (factor : ℚ)
deriving DecidableEq

/-- The single error kind of the module: `__call__` raises `ValueError`
(the spec's InvalidMagnitude) carrying the configured bounds and the
offending magnitude, as in its formatted message. -/
inductive AugError where
  | invalidMagnitude (lo hi m : ℚ)
deriving DecidableEq

/-- `_BaseAugmentationOp`: the two optional configuration fields set in
`__init__` plus the subclass transformation `_apply_transformation`. -/
structure AugOp (α : Type) where
  magnitude_limit : Option (ℚ × ℚ)
  random_mirror : Option Bool
  applyTransformation : Image → ℚ → α

/-- The mirror-and-delegate tail of `_BaseAugmentationOp.__call__`:
`if self.random_mirror and 0.5 < random.random(): magnitude = -magnitude`
followed by `return self._apply_transformation(img, magnitude)`.  The
`and` short-circuits, so a random draw is consumed exactly when
`random_mirror` is truthy. -/
def AugOp.mirrorAndApply {α : Type} (op : AugOp α) (img : Image) (magnitude : ℚ)
    (draws : ℕ → ℚ) (idx : ℕ) : Except AugError α × ℕ :=
  if op.random_mirror = some true then
    (Except.ok (op.applyTransformation img
        (if 1/2 < draws idx then -magnitude else magnitude)), idx + 1)
  else
    (Except.ok (op.applyTransformation img magnitude), idx)

/-- `_BaseAugmentationOp.__call__`: if a `magnitude_limit` is configured,
raise unless `min_magnitude <= magnitude < max_magnitude`; then mirror and
delegate.  The returned cursor makes random-draw consumption observable;
on error the cursor is unchanged. -/
def AugOp.call {α : Type} (op : AugOp α) (img : Image) (magnitude : ℚ)
    (draws : ℕ → ℚ) (idx : ℕ) : Except AugError α × ℕ :=
  match op.magnitude_limit with
  | some (min_magnitude, max_magnitude) =>
    if ¬(min_magnitude ≤ magnitude ∧ magnitude < max_magnitude) then
      (Except.error (AugError.invalidMagnitude min_magnitude max_magnitude magnitude), idx)
    else
      op.mirrorAndApply img magnitude draws idx
  | none => op.mirrorAndApply img magnitude draws idx

/-- The magnitude passes validation: vacuous when no limit is configured. -/
def magOk (lim : Option (ℚ × ℚ)) (m : ℚ) : Prop :=
  ∀ lo hi, lim = some (lo, hi) → lo ≤ m ∧ m < hi

/-- `ShearX.__init__` (defaults `magnitude_limit=(-0.3, 0.3)`,
`random_mirror=True`) and its `_apply_transformation`:
`img.transform(img.size, AFFINE, (1, m, 0, 0, 1, 0))`. -/
def ShearX.mk (magnitude_limit : ℚ × ℚ) (random_mirror : Bool) : AugOp PILImageVal :=
  { magnitude_limit := some magnitude_limit
    random_mirror := some random_mirror
    applyTransformation := fun img m =>
      .transform img img.width img.height 1 m 0 0 1 0 }

/-- `ShearX()` with default arguments. -/
def ShearX.default : AugOp PILImageVal := ShearX.mk (-(3/10), 3/10) true

/-- `ShearY.__init__` (defaults `magnitude_limit=(-0.3, 0.3)`,
`random_mirror=True`) and its `_apply_transformation`:
`img.transform(img.size, AFFINE, (1, 0, 0, m, 1, 0))`. -/
def ShearY.mk (magnitude_limit : ℚ × ℚ) (random_mirror : Bool) : AugOp PILImageVal :=
  { magnitude_limit := some magnitude_limit
    random_mirror := some random_mirror
    applyTransformation := fun img m =>
      .transform img img.width img.height 1 0 0 m 1 0 }

/-- `ShearY()` with default arguments. -/
def ShearY.default : AugOp PILImageVal := ShearY.mk (-(3/10), 3/10) true

/-- `TranslateX.__init__` (defaults `magnitude_limit=(-0.45, 0.45)`,
`random_mirror=True`) and its `_apply_transformation`:
`m *= img.size[0]; img.transform(img.size, AFFINE, (1, 0, m, 0, 1, 0))`. -/
def TranslateX.mk (magnitude_limit : ℚ × ℚ) (random_mirror : Bool) : AugOp PILImageVal :=
  { magnitude_limit := some magnitude_limit
    random_mirror := some random_mirror
    applyTransformation := fun img m =>
      .transform img img.width img.height 1 0 (m * img.width) 0 1 0 }

/-- `TranslateX()` with default arguments. -/
def TranslateX.default : AugOp PILImageVal := TranslateX.mk (-(45/100), 45/100) true

/-- `TranslateY.__init__` (defaults `magnitude_limit=(-0.45, 0.45)`,
`random_mirror=True`) and its `_apply_transformation`:
`m *= img.size[1]; img.transform(img.size, AFFINE, (1, 0, 0, 0, 1, m))`. -/
def TranslateY.mk (magnitude_limit : ℚ × ℚ) (random_mirror : Bool) : AugOp PILImageVal :=
  { magnitude_limit := some magnitude_limit
    random_mirror := some random_mirror
    applyTransformation := fun img m =>
      .transform img img.width img.height 1 0 0 0 1 (m * img.height) }

/-- `TranslateY()` with default arguments. -/
def TranslateY.default : AugOp PILImageVal := TranslateY.mk (-(45/100), 45/100) true

/-- `TranslateXAbs.__init__` (defaults `magnitude_limit=(0, 10)`,
`random_mirror=True`) and its `_apply_transformation`:
`img.transform(img.size, AFFINE, (1, 0, m, 0, 1, 0))` — no scaling. -/
def TranslateXAbs.mk (magnitude_limit : ℚ × ℚ) (random_mirror : Bool) : AugOp PILImageVal :=
  { magnitude_limit := some magnitude_limit
    random_mirror := some random_mirror
    applyTransformation := fun img m =>
      .transform img img.width img.height 1 0 m 0 1 0 }

/-- `TranslateXAbs()` with default arguments. -/
def TranslateXAbs.default : AugOp PILImageVal := TranslateXAbs.mk (0, 10) true

/-- `TranslateYAbs.__init__` (defaults `magnitude_limit=(0, 10)`,
`random_mirror=True`) and its `_apply_transformation`:
`img.transform(img.size, AFFINE, (1, 0, 0, 0, 1, m))` — no scaling. -/
def TranslateYAbs.mk (magnitude_limit : ℚ × ℚ) (random_mirror : Bool) : AugOp PILImageVal :=
  { magnitude_limit := some magnitude_limit
    random_mirror := some random_mirror
    applyTransformation := fun img m =>
      .transform img img.width img.height 1 0 0 0 1 m }

/-- `TranslateYAbs()` with default arguments. -/
def TranslateYAbs.default : AugOp PILImageVal := TranslateYAbs.mk (0, 10) true

/-- `Rotate.__init__` (defaults `magnitude_limit=(-30, 30)`,
`random_mirror=True`) and its `_apply_transformation`: `img.rotate(m)`. -/
def Rotate.mk (magnitude_limit : ℚ × ℚ) (random_mirror : Bool) : AugOp PILImageVal :=
  { magnitude_limit := some magnitude_limit
    random_mirror := some random_mirror
    applyTransformation := fun img m => .rotate img m }

/-- `Rotate()` with default arguments. -/
def Rotate.default : AugOp PILImageVal := Rotate.mk (-30, 30) true

/-- `AutoContrast` overrides no `__init__` (base defaults: both `None`);
`_apply_transformation` is `PIL.ImageOps.autocontrast(img)`. -/
def AutoContrast.mk (magnitude_limit : Option (ℚ × ℚ)) (random_mirror : Option Bool) :
    AugOp PILImageVal :=
  { magnitude_limit := magnitude_limit
    random_mirror := random_mirror
    applyTransformation := fun img _ => .autocontrast img }

/-- `AutoContrast()` with default arguments. -/
def AutoContrast.default : AugOp PILImageVal := AutoContrast.mk none none

/-- `Invert` overrides no `__init__` (base defaults: both `None`);
`_apply_transformation` is `PIL.ImageOps.invert(img)`. -/
def Invert.mk (magnitude_limit : Option (ℚ × ℚ)) (random_mirror : Option Bool) :
    AugOp PILImageVal :=
  { magnitude_limit := magnitude_limit
    random_mirror := random_mirror
    applyTransformation := fun img _ => .concrete (invertImage img) }

/-- `Invert()` with default arguments. -/
def Invert.default : AugOp PILImageVal := Invert.mk none none

/-- `Equalize` overrides no `__init__` (base defaults: both `None`);
`_apply_transformation` is `PIL.ImageOps.equalize(img)`. -/
def Equalize.mk (magnitude_limit : Option (ℚ × ℚ)) (random_mirror : Option Bool) :
    AugOp PILImageVal :=
  { magnitude_limit := magnitude_limit
    random_mirror := random_mirror
    applyTransformation := fun img _ => .equalize img }

/-- `Equalize()` with default arguments. -/
def Equalize.default : AugOp PILImageVal := Equalize.mk none none

/-- `Flip` overrides no `__init__` (base defaults: both `None`);
`_apply_transformation` is `PIL.ImageOps.flip(img)`. -/
def Flip.mk (magnitude_limit : Option (ℚ × ℚ)) (random_mirror : Option Bool) :
    AugOp PILImageVal :=
  { magnitude_limit := magnitude_limit
    random_mirror := random_mirror
    applyTransformation := fun img _ => .flip img }

/-- `Flip()` with default arguments. -/
def Flip.default : AugOp PILImageVal := Flip.mk none none

/-- `Solarize.__init__` (default `magnitude_limit=(0, 256)`, passes
`random_mirror=None`); `_apply_transformation` is
`PIL.ImageOps.solarize(img, m)` — the threshold is the call magnitude. -/
def Solarize.mk (magnitude_limit : ℚ × ℚ) : AugOp PILImageVal :=
  { magnitude_limit := some magnitude_limit
    random_mirror := none
    applyTransformation := fun img m => .solarized img m }

/-- `Solarize()` with default arguments. -/
def Solarize.default : AugOp PILImageVal := Solarize.mk (0, 256)

/-- `SolarizeAdd.__init__` (no `magnitude_limit`, no `random_mirror`,
construction-time `threshold` defaulting to 128);
`_apply_transformation` adds `m` in a wide integer domain, clips to
`[0, 255]`, casts to `uint8` and solarizes with the fixed threshold. -/
def SolarizeAdd.mk (threshold : ℤ) : AugOp PILImageVal :=
  { magnitude_limit := none
    random_mirror := none
    applyTransformation := fun img m => .concrete (solarizeAddImage img m threshold) }

/-- `SolarizeAdd()` with the default threshold 128. -/
def SolarizeAdd.default : AugOp PILImageVal := SolarizeAdd.mk 128

/-- `Posterize` overrides no `__init__` (base defaults: both `None`);
`_apply_transformation` is `m = max(1, int(m)); PIL.ImageOps.posterize(img, m)`. -/
def Posterize.mk (magnitude_limit : Option (ℚ × ℚ)) (random_mirror : Option Bool) :
    AugOp PILImageVal :=
  { magnitude_limit := magnitude_limit
    random_mirror := random_mirror
    applyTransformation := fun img m => .posterize img (max 1 (pyInt m)) }

/-- `Posterize()` with default arguments. -/
def Posterize.default : AugOp PILImageVal := Posterize.mk none none

/-- `Contrast.__init__` (default `magnitude_limit=(0.1, 1.9)`, passes
`random_mirror=None`); `_apply_transformation` is
`PIL.ImageEnhance.Contrast(img).enhance(m)`. -/
def Contrast.mk (magnitude_limit : ℚ × ℚ) : AugOp PILImageVal :=
  { magnitude_limit := some magnitude_limit
    random_mirror := none
    applyTransformation := fun img m => .enhanceContrast img m }

/-- `Contrast()` with default arguments. -/
def Contrast.default : AugOp PILImageVal := Contrast.mk (1/10, 19/10)

/-- `Color.__init__` (default `magnitude_limit=(0.1, 1.9)`, passes
`random_mirror=None`); `_apply_transformation` is
`PIL.ImageEnhance.Color(img).enhance(m)`. -/
def Color.mk (magnitude_limit : ℚ × ℚ) : AugOp PILImageVal :=
  { magnitude_limit := some magnitude_limit
    random_mirror := none
    applyTransformation := fun img m => .enhanceColor img m }

/-- `Color()` with default arguments. -/
def Color.default : AugOp PILImageVal := Color.mk (1/10, 19/10)

/-- `Brightness.__init__` (default `magnitude_limit=(0.1, 1.9)`; it calls
`super().__init__(magnitude_limit=magnitude_limit)` and does NOT pass
`random_mirror`, so the base default `None` applies);
`_apply_transformation` is `PIL.ImageEnhance.Brightness(img).enhance(m)`. -/
def Brightness.mk (magnitude_limit : ℚ × ℚ) : AugOp PILImageVal :=
  { magnitude_limit := some magnitude_limit
    random_mirror := none
    applyTransformation := fun img m => .enhanceBrightness img m }

/-- `Brightness()` with default arguments. -/
def Brightness.default : AugOp PILImageVal := Brightness.mk (1/10, 19/10)

/-- `Sharpness.__init__` (default `magnitude_limit=(0.1, 1.9)`; it calls
`super().__init__(magnitude_limit=magnitude_limit)` and does NOT pass
`random_mirror`, so the base default `None` applies);
`_apply_transformation` is `PIL.ImageEnhance.Sharpness(img).enhance(m)`. -/
def Sharpness.mk (magnitude_limit : ℚ × ℚ) : AugOp PILImageVal :=
  { magnitude_limit := some magnitude_limit
    random_mirror := none
    applyTransformation := fun img m => .enhanceSharpness img m }

/-- `Sharpness()` with default arguments. -/
def Sharpness.default : AugOp PILImageVal := Sharpness.mk (1/10, 19/10)

/-- `Identity` overrides no `__init__` (base defaults: both `None`);
`_apply_transformation` returns `img` itself. -/
def Identity.mk (magnitude_limit : Option (ℚ × ℚ)) (random_mirror : Option Bool) :
    AugOp PILImageVal :=
  { magnitude_limit := magnitude_limit
    random_mirror := random_mirror
    applyTransformation := fun img _ => .concrete img }

/-- `Identity()` with default arguments. -/
def Identity.default : AugOp PILImageVal := Identity.mk none none

/-- A small concrete test image for witnesses. -/
def imgA : Image := ⟨2, 1, [250, 3, 100, 200, 0, 255]⟩

/-- `mirrorAndApply` never produces an error and advances the cursor by one
exactly when `random_mirror` is truthy. -/
theorem mirrorAndApply_eq {α : Type} (op : AugOp α) (img : Image) (m : ℚ)
    (draws : ℕ → ℚ) (idx : ℕ) :
    op.mirrorAndApply img m draws idx =
      if op.random_mirror = some true then
        (Except.ok (op.applyTransformation img
          (if 1/2 < draws idx then -m else m)), idx + 1)
      else
        (Except.ok (op.applyTransformation img m), idx) := rfl

/-- Claim C1: for every operator, image and magnitude, `__call__` raises
InvalidMagnitude if and only if a `magnitude_limit = (lo, hi)` is
configured and `¬(lo ≤ m ∧ m < hi)`; the check is the half-open interval
of the source, so `m = lo` is accepted and `m = hi` is rejected, and an
operator with `magnitude_limit = None` never raises. -/
theorem c1_invalid_magnitude_iff {α : Type} (op : AugOp α) (img : Image)
    (m : ℚ) (draws : ℕ → ℚ) (idx : ℕ) :
    (∃ e, (op.call img m draws idx).1 = Except.error e) ↔
      ∃ lo hi, op.magnitude_limit = some (lo, hi) ∧ ¬(lo ≤ m ∧ m < hi) := by
  obtain ⟨lim, mir, f⟩ := op
  cases lim with
  | none =>
    simp only [AugOp.call, mirrorAndApply_eq]
    constructor
    · rintro ⟨e, he⟩
      split at he <;> simp at he
    · rintro ⟨lo, hi, hlim, -⟩
      exact Option.noConfusion hlim
  | some p =>
    obtain ⟨lo, hi⟩ := p
    simp only [AugOp.call, mirrorAndApply_eq]
    constructor
    · rintro ⟨e, he⟩
      split at he
      · exact ⟨lo, hi, rfl, by assumption⟩
      · split at he <;> simp at he
    · rintro ⟨lo', hi', hlim, hout⟩
      obtain ⟨rfl, rfl⟩ : lo = lo' ∧ hi = hi' := by
        simpa [Prod.ext_iff] using hlim
      rw [if_pos hout]
      exact ⟨_, rfl⟩

/-- Claim C2: with a configured limit and an out-of-range magnitude, the
call returns the InvalidMagnitude error with the random cursor unchanged
(no draw consumed), and the result does not depend on the operator's
transformation function (the transformation logic is never reached, so no
image is touched); operator configuration is an immutable value in this
embedding, so no state changes on error. -/
theorem c2_error_before_effects {α : Type} (lim : Option (ℚ × ℚ))
    (mir : Option Bool) (f g : Image → ℚ → α) (lo hi m : ℚ)
    (hlim : lim = some (lo, hi)) (hout : ¬(lo ≤ m ∧ m < hi))
    (img : Image) (draws : ℕ → ℚ) (idx : ℕ) :
    (AugOp.mk lim mir f).call img m draws idx
        = (Except.error (AugError.invalidMagnitude lo hi m), idx) ∧
      (AugOp.mk lim mir f).call img m draws idx
        = (AugOp.mk lim mir g).call img m draws idx := by
  subst hlim
  refine ⟨?_, ?_⟩ <;> simp [AugOp.call, hout]

/-- Witness for C2: the default `TranslateXAbs` range `[0, 10)` rejects
`m = 10` identically for two different transformation functions, leaving
the cursor at 0. -/
theorem c2_error_before_effects_witness :
    (TranslateXAbs.default.magnitude_limit = some (0, 10)
        ∧ ¬((0:ℚ) ≤ 10 ∧ (10:ℚ) < 10)) ∧
      (AugOp.mk (some ((0:ℚ), (10:ℚ))) (some true) (fun _ _ => (0:ℕ))).call
          imgA 10 (fun _ => 0) 0
        = (Except.error (AugError.invalidMagnitude 0 10 10), 0) ∧
      (AugOp.mk (some ((0:ℚ), (10:ℚ))) (some true) (fun _ _ => (0:ℕ))).call
          imgA 10 (fun _ => 0) 0
        = (AugOp.mk (some ((0:ℚ), (10:ℚ))) (some true) (fun _ _ => (1:ℕ))).call
            imgA 10 (fun _ => 0) 0 :=
  ⟨⟨rfl, by norm_num⟩,
    c2_error_before_effects (some (0, 10)) (some true) _ _ 0 10 10 rfl
      (by norm_num) imgA (fun _ => 0) 0⟩

/-- Claim C4: for an operator with `random_mirror` configured true and an
in-range magnitude, the call consumes exactly one draw (cursor advances by
one) and delegates with `-m` when the draw is strictly greater than `0.5`
and with `m` otherwise; the operator value (its `magnitude_limit` and
`random_mirror`) is immutable in this embedding, so the stored
configuration is unchanged by the call. -/
theorem c4_mirror_one_draw {α : Type} (op : AugOp α) (img : Image) (m : ℚ)
    (draws : ℕ → ℚ) (idx : ℕ) (hmir : op.random_mirror = some true)
    (hok : magOk op.magnitude_limit m) :
    op.call img m draws idx =
      (Except.ok (op.applyTransformation img
        (if 1/2 < draws idx then -m else m)), idx + 1) := by
  obtain ⟨lim, mir, f⟩ := op
  have hmir' : mir = some true := hmir
  subst hmir'
  cases lim with
  | none => simp [AugOp.call, mirrorAndApply_eq]
  | some p =>
    obtain ⟨lo, hi⟩ := p
    have h : lo ≤ m ∧ m < hi := hok lo hi rfl
    simp [AugOp.call, mirrorAndApply_eq, h]

/-- Witness for C4: default `ShearX` with magnitude 0 and a draw of 1
(greater than 0.5) consumes one draw and delegates `-0`. -/
theorem c4_mirror_one_draw_witness :
    ShearX.default.random_mirror = some true ∧
      magOk ShearX.default.magnitude_limit 0 ∧
      ShearX.default.call imgA 0 (fun _ => 1) 0 =
        (Except.ok (ShearX.default.applyTransformation imgA
          (if 1/2 < (fun _ => (1:ℚ)) 0 then -0 else 0)), 0 + 1) :=
  ⟨rfl,
    by
      intro lo hi hlim
      obtain ⟨rfl, rfl⟩ : (-(3/10) : ℚ) = lo ∧ (3/10 : ℚ) = hi := by
        simpa [ShearX.default, ShearX.mk, Prod.ext_iff] using hlim
      norm_num,
    c4_mirror_one_draw ShearX.default imgA 0 (fun _ => 1) 0 rfl
      (by
        intro lo hi hlim
        obtain ⟨rfl, rfl⟩ : (-(3/10) : ℚ) = lo ∧ (3/10 : ℚ) = hi := by
          simpa [ShearX.default, ShearX.mk, Prod.ext_iff] using hlim
        norm_num)⟩

/-- Claim C3 as stated is false: `Brightness()` and `Sharpness()` call
`super().__init__(magnitude_limit=magnitude_limit)` without passing
`random_mirror`, so the base default `None` applies — `random_mirror` is
not true for either default-constructed operator. -/
theorem c3_counterexample :
    ¬(Brightness.default.random_mirror = some true ∧
      Sharpness.default.random_mirror = some true) := by
  decide

/-- Claim C3 amended: `Brightness` and `Sharpness` constructed with
default arguments have `random_mirror = None` (no random sign mirror) and
default magnitude range `[0.1, 1.9)`. -/
theorem c3_brightness_sharpness_defaults :
    Brightness.default.random_mirror = none ∧
      Brightness.default.magnitude_limit = some (1/10, 19/10) ∧
      Sharpness.default.random_mirror = none ∧
      Sharpness.default.magnitude_limit = some (1/10, 19/10) :=
  ⟨rfl, rfl, rfl, rfl⟩

/-- Claim C5: for every image and delegated magnitude, `TranslateX`
delegates the affine map `(1, 0, m * width, 0, 1, 0)` (scaling by the
image's own width at call time) while `TranslateXAbs` delegates
`(1, 0, m, 0, 1, 0)` with no scaling, and likewise `TranslateY` /
`TranslateYAbs` with the height; on a 100-pixel-wide image, `m = 0.1`
gives a `TranslateX` shift coefficient of 10 pixels, and `TranslateXAbs`
with `m = 10` gives a shift of 10 pixels for every image width. -/
theorem c5_translate_scaling :
    (∀ (img : Image) (m : ℚ),
        TranslateX.default.applyTransformation img m =
          .transform img img.width img.height 1 0 (m * img.width) 0 1 0) ∧
      (∀ (img : Image) (m : ℚ),
        TranslateXAbs.default.applyTransformation img m =
          .transform img img.width img.height 1 0 m 0 1 0) ∧
      (∀ (img : Image) (m : ℚ),
        TranslateY.default.applyTransformation img m =
          .transform img img.width img.height 1 0 0 0 1 (m * img.height)) ∧
      (∀ (img : Image) (m : ℚ),
        TranslateYAbs.default.applyTransformation img m =
          .transform img img.width img.height 1 0 0 0 1 m) ∧
      (∀ pix : List ℕ,
        TranslateX.default.applyTransformation ⟨100, 1, pix⟩ (1/10) =
          .transform ⟨100, 1, pix⟩ 100 1 1 0 10 0 1 0) ∧
      (∀ img : Image,
        TranslateXAbs.default.applyTransformation img 10 =
          .transform img img.width img.height 1 0 10 0 1 0) := by
  refine ⟨fun img m => rfl, fun img m => rfl, fun img m => rfl,
    fun img m => rfl, fun pix => ?_, fun img => rfl⟩
  have h : (1/10 : ℚ) * ((100 : ℕ) : ℚ) = 10 := by norm_num
  simp only [TranslateX.default, TranslateX.mk, h]

/-- Claim C6: `SolarizeAdd` (no magnitude limit, construction-time
threshold) adds `m` to every channel value in the wide integer domain,
clamps each element independently to `[0, 255]` (so the result always
fits 8 bits), and solarizes the clamped value with the fixed threshold;
a channel value of 250 with `m = 20` clamps to 255 before the solarize
step. -/
theorem c6_solarize_add (t : ℤ) (img : Image) (m : ℚ) (draws : ℕ → ℚ)
    (idx : ℕ) :
    (SolarizeAdd.mk t).magnitude_limit = none ∧
      (SolarizeAdd.mk t).call img m draws idx =
        (Except.ok (.concrete ⟨img.width, img.height,
          img.pixels.map (fun v => solarizePixel t (addClamp v m))⟩), idx) ∧
      (∀ (v : ℕ) (mm : ℚ), addClamp v mm ≤ 255) ∧
      addClamp 250 20 = 255 := by
  refine ⟨rfl, ?_, ?_, by norm_num [addClamp]; omega⟩
  · simp [AugOp.call, mirrorAndApply_eq, SolarizeAdd.mk, solarizeAddImage]
  · intro v mm
    have hfl : ⌊max 0 (min 255 ((v : ℚ) + mm))⌋ ≤ 255 := by
      have h1 : max 0 (min 255 ((v : ℚ) + mm)) ≤ 255 := by
        rcases le_total ((v : ℚ) + mm) 255 with h | h
        · exact max_le (by norm_num) (le_trans (min_le_right _ _) h)
        · exact max_le (by norm_num) (min_le_left _ _)
      calc ⌊max 0 (min 255 ((v : ℚ) + mm))⌋ ≤ ⌊(255 : ℚ)⌋ := Int.floor_le_floor h1
        _ = 255 := by norm_num
    unfold addClamp
    omega

/-- Claim C7: `Posterize` performs no magnitude validation (base defaults,
no limit configured) and delegates `PIL.ImageOps.posterize` with
`max(1, int(m))` bits; since Python's `int` truncates toward zero this
equals `max(1, floor(m))`, is never below 1, and `m = 0.5` yields 1 bit
per channel. -/
theorem c7_posterize_bits (img : Image) (m : ℚ) (draws : ℕ → ℚ) (idx : ℕ) :
    Posterize.default.magnitude_limit = none ∧
      Posterize.default.call img m draws idx =
        (Except.ok (.posterize img (max 1 (pyInt m))), idx) ∧
      max 1 (pyInt m) = max 1 ⌊m⌋ ∧
      1 ≤ max 1 (pyInt m) ∧
      max 1 (pyInt (1/2)) = 1 := by
  refine ⟨rfl, ?_, ?_, le_max_left 1 _, by norm_num [pyInt]⟩
  · simp [AugOp.call, mirrorAndApply_eq, Posterize.default, Posterize.mk]
  · unfold pyInt
    split
    · rfl
    · rename_i hneg
      have hq : m ≤ 0 := le_of_lt (lt_of_not_le hneg)
      have hc : ⌈m⌉ ≤ 0 := Int.ceil_le.mpr (by exact_mod_cast hq)
      have hf : ⌊m⌋ ≤ 0 := le_trans (Int.floor_le_ceil m) hc
      rw [max_eq_left (le_trans hc (by norm_num)),
        max_eq_left (le_trans hf (by norm_num))]


/-- Inverting every 8-bit channel value twice restores the pixel data. -/
theorem invertImage_invertImage (img : Image) (h : ∀ v ∈ img.pixels, v ≤ 255) :
    invertImage (invertImage img) = img := by
  obtain ⟨w, ht, pix⟩ := img
  simp only [invertImage, List.map_map, Image.mk.injEq, true_and]
  have hpt : ∀ v ∈ pix, (invertPixel ∘ invertPixel) v = v := by
    intro v hv
    have hv255 : v ≤ 255 := h v hv
    simp only [Function.comp_apply, invertPixel]
    omega
  calc pix.map (invertPixel ∘ invertPixel) = pix.map id := List.map_congr_left hpt
    _ = pix := List.map_id pix

/-- Claim C8: `Invert()` (no limit, no mirror) maps every channel value
`v` to `255 - v`, and applying it twice through the full call path
reproduces the original pixel data exactly (for 8-bit channel values). -/
theorem c8_invert_involutive (img : Image) (m mm : ℚ)
    (draws draws' : ℕ → ℚ) (idx idx' : ℕ)
    (h : ∀ v ∈ img.pixels, v ≤ 255) :
    Invert.default.call img m draws idx =
        (Except.ok (.concrete (invertImage img)), idx) ∧
      Invert.default.call (invertImage img) mm draws' idx' =
        (Except.ok (.concrete img), idx') := by
  constructor
  · simp [AugOp.call, mirrorAndApply_eq, Invert.default, Invert.mk]
  · have hinv := invertImage_invertImage img h
    simp [AugOp.call, mirrorAndApply_eq, Invert.default, Invert.mk, hinv]

/-- Witness for C8: the concrete image `imgA` has 8-bit pixels, and a
double application of `Invert()` restores it through `__call__`. -/
theorem c8_invert_involutive_witness :
    (∀ v ∈ imgA.pixels, v ≤ 255) ∧
      Invert.default.call imgA 0 (fun _ => 0) 0 =
        (Except.ok (.concrete (invertImage imgA)), 0) ∧
      Invert.default.call (invertImage imgA) 0 (fun _ => 0) 0 =
        (Except.ok (.concrete imgA), 0) :=
  ⟨by decide,
    c8_invert_involutive imgA 0 0 (fun _ => 0) (fun _ => 0) 0 0 (by decide)⟩

/-- Claim C9: `Identity()` has no magnitude limit and no mirror, so for
every image, magnitude and random stream the call succeeds, consumes no
draw, and returns the input image's pixel data unchanged. -/
theorem c9_identity (img : Image) (m : ℚ) (draws : ℕ → ℚ) (idx : ℕ) :
    Identity.default.magnitude_limit = none ∧
      Identity.default.random_mirror = none ∧
      Identity.default.call img m draws idx =
        (Except.ok (.concrete img), idx) := by
  refine ⟨rfl, rfl, ?_⟩
  simp [AugOp.call, mirrorAndApply_eq, Identity.default, Identity.mk]

/-- Claim C10: validation constrains only the caller-supplied magnitude.
`TranslateXAbs()` and `TranslateYAbs()` both have range `[0, 10)` and
`random_mirror=True`; for any valid `0 < m < 10` and any draw `r > 0.5`
each call succeeds and delegates the affine shift `-m` (the x-offset for
`TranslateXAbs`, the y-offset for `TranslateYAbs`) — a value outside the
configured valid range. -/
theorem c10_mirror_escapes_range (img : Image) (m r : ℚ)
    (h1 : 0 < m) (h2 : m < 10) (hr : 1/2 < r) :
    TranslateXAbs.default.magnitude_limit = some (0, 10) ∧
      TranslateXAbs.default.random_mirror = some true ∧
      TranslateXAbs.default.call img m (fun _ => r) 0 =
        (Except.ok (.transform img img.width img.height 1 0 (-m) 0 1 0), 1) ∧
      TranslateYAbs.default.magnitude_limit = some (0, 10) ∧
      TranslateYAbs.default.random_mirror = some true ∧
      TranslateYAbs.default.call img m (fun _ => r) 0 =
        (Except.ok (.transform img img.width img.height 1 0 0 0 1 (-m)), 1) ∧
      ¬(0 ≤ -m ∧ -m < 10) := by
  have h : (0:ℚ) ≤ m ∧ m < 10 := ⟨le_of_lt h1, h2⟩
  refine ⟨rfl, rfl, ?_, rfl, rfl, ?_, ?_⟩
  · simp only [AugOp.call, mirrorAndApply_eq, TranslateXAbs.default,
      TranslateXAbs.mk, h, not_true_eq_false, if_false, if_pos hr]
    simp
  · simp only [AugOp.call, mirrorAndApply_eq, TranslateYAbs.default,
      TranslateYAbs.mk, h, not_true_eq_false, if_false, if_pos hr]
    simp
  · rintro ⟨ha, -⟩
    linarith

/-- Witness for C10: `m = 5`, draw `r = 1`: both `TranslateXAbs()` and
`TranslateYAbs()` delegate the shift `-5`, outside `[0, 10)`. -/
theorem c10_mirror_escapes_range_witness :
    ((0:ℚ) < 5 ∧ (5:ℚ) < 10 ∧ (1:ℚ)/2 < 1) ∧
      TranslateXAbs.default.call imgA 5 (fun _ => 1) 0 =
        (Except.ok (.transform imgA imgA.width imgA.height 1 0 (-5) 0 1 0), 1) ∧
      TranslateYAbs.default.call imgA 5 (fun _ => 1) 0 =
        (Except.ok (.transform imgA imgA.width imgA.height 1 0 0 0 1 (-5)), 1) ∧
      ¬((0:ℚ) ≤ -5 ∧ (-5:ℚ) < 10) :=
  ⟨⟨by norm_num, by norm_num, by norm_num⟩,
    (c10_mirror_escapes_range imgA 5 1 (by norm_num) (by norm_num)
      (by norm_num)).2.2.1,
    (c10_mirror_escapes_range imgA 5 1 (by norm_num) (by norm_num)
      (by norm_num)).2.2.2.2.2.1,
    (c10_mirror_escapes_range imgA 5 1 (by norm_num) (by norm_num)
      (by norm_num)).2.2.2.2.2.2⟩

end Aug
